import Mathlib

/-!
Shallow embedding of the build-job supervisor in `dominion/tasks.py`.

The embedding covers:
* the builder environment constructed in the child branch of `build`
  (lines 142-194 of `tasks.py`), as an association list with dict
  assignment semantics;
* the parent (supervisor) branch of `build` (lines 195-243), as a
  straight-line producer of an event trace together with the value the
  task returns (`none` models an uncaught exception propagating out of
  the task);
* the `_pass_fd` retry loop (lines 82-100), as a fuel-indexed runner over
  an abstract sequence of connection-attempt outcomes.

Nondeterministic outside-world outcomes (whether `os.makedirs` raises,
the exit status of the `cp` subprocess, the status returned by
`os.waitpid`, whether `shutil.rmtree` raises, whether the Django user
lookup succeeds, whether the user enabled e-mail notifications) are
inputs of the model, collected in `Oracle`.
-/

/-- An entry of the `users` list of the image specification record. -/
structure UserEntry where
  username : String
  password : String
  deriving DecidableEq, Repr

/-- The `target` record of the image specification (`device`, `distro`).
A `target` that is falsy in Python is modelled as `none` at the use site. -/
structure Target where
  device : String
  distro : String
  deriving DecidableEq, Repr

/-- The image specification record received by `tasks.build`.
`selected_packages` may be `None` (modelled `none`); `root_password` is
falsy when empty; `target` is `none` when falsy; `configuration` is a
Python dict, modelled as its list of key/value items. -/
structure Image where
  id : String
  selected_packages : Option (List String)
  root_password : String
  users : List UserEntry
  target : Option Target
  configuration : List (String × String)
  deriving DecidableEq, Repr

/-- Worker configuration and ambient state read by the child:
`app.conf` values and `os.environ['PATH']`. -/
structure Conf where
  base_system : String
  builder_location : String
  workspace : String
  pathVar : String
  deriving DecidableEq, Repr

/-- The builder environment: an ordered mapping of variable names to
string values, as a Python dict's item list. -/
abbrev Env := List (String × String)

/-- Dict assignment `d[k] = v`: replace the value at the first (unique)
occurrence of `k`, or append a fresh binding at the end. -/
def Env.set : Env → String → String → Env
  | [], k, v => [(k, v)]
  | p :: rest, k, v => if p.1 = k then (k, v) :: rest else p :: Env.set rest k v

/-- Dict lookup `d.get(k)`: value at the first occurrence of `k`. -/
def Env.get? : Env → String → Option String
  | [], _ => none
  | p :: rest, k => if p.1 = k then some p.2 else Env.get? rest k

/-- The allow-list `allowed` of configuration keys (`tasks.py` lines
175-188). -/
def allowedKeys : List String :=
  ["HOSTNAME", "DEFLOCAL", "TIMEZONE", "ENABLE_REDUCE", "REDUCE_APT",
   "REDUCE_DOC", "REDUCE_MAN", "REDUCE_VIM", "REDUCE_BASH", "REDUCE_HWDB",
   "REDUCE_SSHD", "REDUCE_LOCALE"]

/-- The child's environment dict just before the `env.update` step
(`tasks.py` lines 148-172): the fixed-key dict literal, then the
conditional root-password, target-model and first-user keys. -/
def envBeforeUpdate (conf : Conf) (image : Image) : Env :=
  let build_id := image.id
  let packages_list := (image.selected_packages.getD [])
  let target_dir := conf.workspace ++ "/" ++ build_id
  let intermediate_dir := target_dir ++ "/" ++ "intermediate"
  let apt_includes :=
    if packages_list.isEmpty then "" else String.intercalate "," packages_list
  let env : Env :=
    [("PATH", conf.pathVar),
     ("BASEDIR", target_dir),
     ("CHROOT_SOURCE", intermediate_dir),
     ("IMAGE_NAME", target_dir),
     ("WORKSPACE_DIR", conf.workspace),
     ("BUILD_ID", build_id),
     ("RPI2_BUILDER_LOCATION", conf.builder_location),
     ("APT_INCLUDES", apt_includes)]
  let env :=
    if image.root_password ≠ "" then
      (env.set "ENABLE_ROOT" "true").set "PASSWORD" image.root_password
    else env
  let env :=
    match image.target with
    | some t =>
        env.set "RPI_MODEL" (if t.device = "Raspberry Pi 3" then "3" else "2")
    | none => env
  match image.users with
  | [] => env
  | user :: _ =>
      ((env.set "ENABLE_USER" "true").set "USER_NAME" user.username).set
        "USER_PASSWORD" user.password

/-- The environment the child passes to `os.execvpe` (`tasks.py` lines
148-194): `envBeforeUpdate`, then — when the caller configuration is
truthy — the allow-list-filtered caller configuration merged in by
`env.update`. -/
def buildEnv (conf : Conf) (image : Image) : Env :=
  match image.configuration with
  | [] => envBeforeUpdate conf image
  | _ =>
      (image.configuration.filter (fun p => allowedKeys.contains p.1)).foldl
        (fun e p => e.set p.1 p.2) (envBeforeUpdate conf image)

/-- Signals used by the supervisor. -/
inductive Sig where
  | SIGSTOP
  | SIGKILL
  | SIGCONT
  deriving DecidableEq, Repr

/-- Observable actions of the supervisor (parent branch of `build`), in
program order. `writePty` is an `os.write` on the pty master. -/
inductive Event where
  | startThread
  | makedirs (ok : Bool)
  | kill (s : Sig)
  | copyWait (exit : Int)
  | writePty (data : String)
  | waitpid (ret : Int)
  | rmtree (ok : Bool)
  | saveFirmware (name : String)
  | sendEmail (subject message : String)
  deriving DecidableEq, Repr

/-- Outcomes of the external world during one supervisor run. -/
structure Oracle where
  makedirsOk : Bool
  copyExit : Int
  retcode : Int
  rmtreeOk : Bool
  userExists : Bool
  emailNotifications : Bool
  deriving DecidableEq, Repr

def MAGIC_PHRASE : String := "Let\x27s wind up"

def startBanner : String := "Start building...\n"

def failLine : String := "Build process failed\n"

def successMessage : String :=
  "You can directly download it from Dashboard: https://cusdeb.com/dashboard/"

def failureMessage : String :=
  "Sorry, something went wrong. Cusdeb team has been informed about the situation."

/-- Tail of the success branch (`tasks.py` lines 225-232 and 240-241):
user lookup, firmware save, subject/message assembly, e-mail attempt.
Accessing `image['target']['distro']` with a falsy target raises, which
ends the run with no return value (`none`). -/
def successTail (o : Oracle) (image : Image) : List Event × Option Int :=
  if o.userExists then
    match image.target with
    | none => ([Event.saveFirmware image.id], none)
    | some t =>
        ([Event.saveFirmware image.id] ++
           (if o.emailNotifications then
              [Event.sendEmail (t.distro ++ " has built!") successMessage]
            else []),
         some 0)
  else ([], some 0)

/-- Tail of the failure branch (`tasks.py` lines 233-241): failure line on
the pty, subject/message assembly, e-mail attempt.  As in `successTail`,
a falsy target makes the subject interpolation raise. -/
def failureTail (o : Oracle) (image : Image) : List Event × Option Int :=
  match image.target with
  | none => ([Event.writePty failLine], none)
  | some t =>
      ([Event.writePty failLine] ++
         (if o.userExists && o.emailNotifications then
            [Event.sendEmail (t.distro ++ " build has failed!") failureMessage]
          else []),
       some o.retcode)

/-- Events of `tasks.py` from the banner write onwards, starting right
after the `cp` subprocess wait (lines 212-243): optional SIGKILL when the
copy exited non-zero, banner write, SIGCONT, blocking wait, then either
the unguarded `shutil.rmtree` raising (run ends, `none` returned) or
cleanup, sentinel write and the outcome branch. -/
def afterCopy (o : Oracle) (image : Image) : List Event × Option Int :=
  let head :=
    (if o.copyExit = 0 then [] else [Event.kill Sig.SIGKILL]) ++
      [Event.writePty startBanner, Event.kill Sig.SIGCONT,
       Event.waitpid o.retcode]
  if o.rmtreeOk then
    let t := if o.retcode = 0 then successTail o image else failureTail o image
    (head ++ [Event.rmtree true, Event.writePty MAGIC_PHRASE] ++ t.1, t.2)
  else
    (head ++ [Event.rmtree false], none)

/-- The parent branch of `tasks.build` (`tasks.py` lines 195-243) as an
event trace plus returned value (`none` = an exception escaped the task).
`handoff` is the behaviour of the `_pass_fd` thread; the supervisor
starts it and never consults it, which the definition makes explicit by
ignoring the argument after the `startThread` event. -/
def build (_handoff : List Unit) (o : Oracle) (image : Image) :
    List Event × Option Int :=
  let rest := afterCopy o image
  (Event.startThread ::
     ((if o.makedirsOk then [Event.makedirs true]
       else [Event.makedirs false, Event.kill Sig.SIGKILL]) ++
        (Event.copyWait o.copyExit :: rest.1)),
   rest.2)

/-- The byte string an event writes to the pty master, if any. -/
def ptyWrite? : Event → Option String
  | Event.writePty s => some s
  | _ => none

/-- The byte strings written to the pty master, in order. -/
def ptyWrites (tr : List Event) : List String :=
  tr.filterMap ptyWrite?

/-- Connection-attempt outcomes seen by `_pass_fd`'s `sock.connect`. -/
inductive ConnResult where
  | enoent
  | econnrefused
  | otherErr
  | ok
  deriving DecidableEq, Repr

/-- Observable actions of the `_pass_fd` thread. -/
inductive FdEvent where
  | sleepOne
  | sendFd
  deriving DecidableEq, Repr

/-- The `_pass_fd` loop (`tasks.py` lines 82-100) run for at most `fuel`
connection attempts, starting at attempt index `i`: a failed connect
sleeps one time unit and retries; a successful connect breaks the loop
and the descriptor is sent once.  `none` means the loop is still running
after `fuel` attempts. -/
def pass_fd (attempts : Nat → ConnResult) : Nat → Nat → Option (List FdEvent)
  | 0, _ => none
  | fuel + 1, i =>
    match attempts i with
    | ConnResult.ok => some [FdEvent.sendFd]
    | _ => (pass_fd attempts fuel (i + 1)).map (fun l => FdEvent.sleepOne :: l)

/-- The eight keys of the child's environment dict literal (`tasks.py`
lines 149-158). -/
def fixedKeys : List String :=
  ["PATH", "BASEDIR", "CHROOT_SOURCE", "IMAGE_NAME", "WORKSPACE_DIR",
   "BUILD_ID", "RPI2_BUILDER_LOCATION", "APT_INCLUDES"]

/-- The keys the child sets conditionally (`tasks.py` lines 160-172). -/
def conditionalKeys : List String :=
  ["ENABLE_ROOT", "PASSWORD", "RPI_MODEL", "ENABLE_USER", "USER_NAME",
   "USER_PASSWORD"]

/-- Worker configuration taken from the option defaults in `tasks.py`. -/
def sampleConf : Conf :=
  { base_system := "/var/dominion/jessie-armhf"
    builder_location := "/var/dominion/rpi2-gen-image"
    workspace := "/tmp/dominion"
    pathVar := "/usr/bin:/bin" }

/-- The end-to-end image specification of the spec's scenario. -/
def sampleImage : Image :=
  { id := "abc123"
    selected_packages := some ["vim"]
    root_password := "x"
    users := [{ username := "bob", password := "y" }]
    target := some { device := "Raspberry Pi 3", distro := "TestOS" }
    configuration := [("HOSTNAME", "h1"), ("BAD", "z")] }

/-- A run where everything succeeds and the builder exits 0. -/
def okOracle : Oracle :=
  { makedirsOk := true, copyExit := 0, retcode := 0, rmtreeOk := true,
    userExists := true, emailNotifications := true }

/-- A run where the builder exits with status 2. -/
def failOracle : Oracle :=
  { makedirsOk := true, copyExit := 0, retcode := 2, rmtreeOk := true,
    userExists := true, emailNotifications := true }

/-- A run where `os.makedirs(target_dir)` raises `OSError`. -/
def mkdirFailOracle : Oracle :=
  { makedirsOk := false, copyExit := 0, retcode := 9, rmtreeOk := true,
    userExists := true, emailNotifications := true }

/-- A run where the build succeeds but `shutil.rmtree` raises. -/
def rmtreeFailOracle : Oracle :=
  { makedirsOk := true, copyExit := 0, retcode := 0, rmtreeOk := false,
    userExists := true, emailNotifications := true }

/-- An image specification with every conditional branch off. -/
def plainImage : Image :=
  { id := "b1", selected_packages := none, root_password := "",
    users := [], target := none, configuration := [] }

/-- A connection-attempt history whose first two attempts find no socket
and whose third succeeds. -/
def sampleAttempts : Nat → ConnResult :=
  fun n => if n < 2 then ConnResult.enoent else ConnResult.ok

/-! ## Generic lemmas about the environment dict -/

/-- Dict lookup after dict assignment. -/
theorem Env.get_set (m : Env) (k v k' : String) :
    (m.set k v).get? k' = if k' = k then some v else m.get? k' := by
  induction m with
  | nil =>
      by_cases h : k' = k
      · subst h; simp [Env.set, Env.get?]
      · have hk : ¬(k = k') := fun hh => h hh.symm
        simp [Env.set, Env.get?, h, hk]
  | cons p rest ih =>
      by_cases h1 : p.1 = k
      · by_cases h2 : k' = k
        · subst h2; simp [Env.set, Env.get?, h1]
        · have hk : ¬(k = k') := fun hh => h2 hh.symm
          simp [Env.set, Env.get?, h1, h2, hk]
      · by_cases h2 : k' = k
        · subst h2; simp [Env.set, Env.get?, h1, ih]
        · simp [Env.set, Env.get?, h1, h2, ih]

/-- Dict lookup after a left fold of dict assignments: if every binding
of `l` at key `k` carries the value `v₀`, the fold leaves `some v₀` at
`k` when `l` touches `k` at all, and `k` untouched otherwise. -/
theorem Env.get_foldl_set (l : List (String × String)) (env : Env)
    (k v₀ : String) (h : ∀ p ∈ l, p.1 = k → p.2 = v₀) :
    (l.foldl (fun e p => e.set p.1 p.2) env).get? k =
      if l.any (fun p => p.1 = k) then some v₀ else env.get? k := by
  induction l generalizing env with
  | nil => simp
  | cons p rest ih =>
      simp only [List.foldl_cons, List.any_cons]
      rw [ih _ (fun q hq => h q (List.mem_cons_of_mem _ hq))]
      by_cases hp : p.1 = k
      · have hv : p.2 = v₀ := h p (List.mem_cons_self _ _) hp
        by_cases hr : rest.any (fun q => q.1 = k) <;>
          simp [hp, hr, Env.get_set, hv]
      · have hk : ¬(k = p.1) := fun hh => hp hh.symm
        by_cases hr : rest.any (fun q => q.1 = k) <;>
          simp [hp, hr, Env.get_set, hk]

/-- `buildEnv` is the filtered-configuration fold over `envBeforeUpdate`
whether or not the configuration is empty. -/
theorem buildEnv_eq_foldl (conf : Conf) (image : Image) :
    buildEnv conf image =
      (image.configuration.filter (fun p => allowedKeys.contains p.1)).foldl
        (fun e p => e.set p.1 p.2) (envBeforeUpdate conf image) := by
  cases h : image.configuration <;> simp [buildEnv, h]

/-- The `env.update` step only touches allow-listed keys: at any other
key `buildEnv` agrees with `envBeforeUpdate`. -/
theorem buildEnv_get_of_not_allowed (conf : Conf) (image : Image)
    (k : String) (hk : k ∉ allowedKeys) :
    (buildEnv conf image).get? k = (envBeforeUpdate conf image).get? k := by
  have hside : ∀ p ∈ image.configuration.filter
      (fun p => allowedKeys.contains p.1), p.1 = k → p.2 = "" := by
    intro p hp hpk
    rcases List.mem_filter.mp hp with ⟨-, hal⟩
    have hmem : p.1 ∈ allowedKeys := by simpa using hal
    rw [hpk] at hmem
    exact absurd hmem hk
  rw [buildEnv_eq_foldl, Env.get_foldl_set _ _ k "" hside, if_neg]
  intro hany
  rcases List.any_eq_true.mp hany with ⟨p, hp, hpk⟩
  rcases List.mem_filter.mp hp with ⟨-, hal⟩
  have hmem : p.1 ∈ allowedKeys := by simpa using hal
  rw [of_decide_eq_true hpk] at hmem
  exact hk hmem

/-- Keys never assigned by the child never appear in `envBeforeUpdate`. -/
theorem envBeforeUpdate_get_other (conf : Conf) (image : Image) (k : String)
    (h1 : k ∉ fixedKeys) (h2 : k ∉ conditionalKeys) :
    (envBeforeUpdate conf image).get? k = none := by
  simp [fixedKeys] at h1
  simp [conditionalKeys] at h2
  obtain ⟨n1, n2, n3, n4, n5, n6, n7, n8⟩ := h1
  obtain ⟨m1, m2, m3, m4, m5, m6⟩ := h2
  by_cases hrp : image.root_password ≠ "" <;>
    cases htg : image.target <;> cases hus : image.users <;>
      simp [envBeforeUpdate, Env.get_set, Env.get?, hrp, htg, hus,
        n1, n2, n3, n4, n5, n6, n7, n8, m1, m2, m3, m4, m5, m6,
        Ne.symm n1, Ne.symm n2, Ne.symm n3, Ne.symm n4, Ne.symm n5,
        Ne.symm n6, Ne.symm n7, Ne.symm n8,
        Ne.symm m1, Ne.symm m2, Ne.symm m3, Ne.symm m4, Ne.symm m5,
        Ne.symm m6]

/-- The builder-location value sits under `RPI2_BUILDER_LOCATION`. -/
theorem envBeforeUpdate_get_rpi2 (conf : Conf) (image : Image) :
    (envBeforeUpdate conf image).get? "RPI2_BUILDER_LOCATION" =
      some conf.builder_location := by
  by_cases hrp : image.root_password ≠ "" <;>
    cases htg : image.target <;> cases hus : image.users <;>
      simp [envBeforeUpdate, Env.get_set, Env.get?, hrp, htg, hus]

/-- With a present target record, `RPI_MODEL` holds the mapped model
code before the update step. -/
theorem envBeforeUpdate_rpi_model_some (conf : Conf) (image : Image)
    (t : Target) (htg : image.target = some t) :
    (envBeforeUpdate conf image).get? "RPI_MODEL" =
      some (if t.device = "Raspberry Pi 3" then "3" else "2") := by
  by_cases hrp : image.root_password ≠ "" <;> cases hus : image.users <;>
    simp [envBeforeUpdate, Env.get_set, Env.get?, hrp, htg, hus]

/-- With no target record, `RPI_MODEL` is absent before the update step. -/
theorem envBeforeUpdate_rpi_model_none (conf : Conf) (image : Image)
    (htg : image.target = none) :
    (envBeforeUpdate conf image).get? "RPI_MODEL" = none := by
  by_cases hrp : image.root_password ≠ "" <;> cases hus : image.users <;>
    simp [envBeforeUpdate, Env.get_set, Env.get?, hrp, htg, hus]

/-- With a non-empty users list, the credential keys before the update
step come from the head entry. -/
theorem envBeforeUpdate_user_cons (conf : Conf) (image : Image)
    (u : UserEntry) (rest : List UserEntry) (hus : image.users = u :: rest) :
    (envBeforeUpdate conf image).get? "ENABLE_USER" = some "true"
      ∧ (envBeforeUpdate conf image).get? "USER_NAME" = some u.username
      ∧ (envBeforeUpdate conf image).get? "USER_PASSWORD" = some u.password := by
  by_cases hrp : image.root_password ≠ "" <;> cases htg : image.target <;>
    simp [envBeforeUpdate, Env.get_set, Env.get?, hrp, htg, hus]

/-- With an empty users list, no credential key is set before the update
step. -/
theorem envBeforeUpdate_user_nil (conf : Conf) (image : Image)
    (hus : image.users = []) :
    (envBeforeUpdate conf image).get? "ENABLE_USER" = none
      ∧ (envBeforeUpdate conf image).get? "USER_NAME" = none
      ∧ (envBeforeUpdate conf image).get? "USER_PASSWORD" = none := by
  by_cases hrp : image.root_password ≠ "" <;> cases htg : image.target <;>
    simp [envBeforeUpdate, Env.get_set, Env.get?, hrp, htg, hus]

/-- `HOSTNAME` is never assigned before the update step. -/
theorem envBeforeUpdate_get_hostname (conf : Conf) (image : Image) :
    (envBeforeUpdate conf image).get? "HOSTNAME" = none :=
  envBeforeUpdate_get_other conf image "HOSTNAME" (by decide) (by decide)

/-! ## Lemmas about the supervisor trace -/

/-- The success tail writes nothing to the pty. -/
theorem ptyWrites_successTail (o : Oracle) (image : Image) :
    (successTail o image).1.filterMap ptyWrite? = [] := by
  by_cases h5 : o.userExists <;> cases h7 : image.target <;>
    by_cases h6 : o.emailNotifications <;>
      simp [successTail, ptyWrite?, h5, h6, h7]

/-- The failure tail writes exactly the failure line to the pty. -/
theorem ptyWrites_failureTail (o : Oracle) (image : Image) :
    (failureTail o image).1.filterMap ptyWrite? = [failLine] := by
  cases h7 : image.target <;>
    by_cases h56 : o.userExists && o.emailNotifications <;>
      simp [failureTail, ptyWrite?, h7, h56]

/-- Pty writes of the post-copy phase: banner, then — when the cleanup
call returns — the sentinel, followed by the failure line on nonzero
status; when the cleanup call raises, the banner alone. -/
theorem ptyWrites_afterCopy (o : Oracle) (image : Image) :
    (afterCopy o image).1.filterMap ptyWrite? =
      if o.rmtreeOk then
        (if o.retcode = 0 then [startBanner, MAGIC_PHRASE]
         else [startBanner, MAGIC_PHRASE, failLine])
      else [startBanner] := by
  by_cases h2 : o.copyExit = 0 <;> by_cases h3 : o.rmtreeOk <;>
    by_cases h4 : o.retcode = 0 <;>
      simp [afterCopy, ptyWrite?, h2, h3, h4,
        ptyWrites_successTail, ptyWrites_failureTail]

/-- The supervisor trace splits as the pre-copy events, the copy wait,
and the post-copy phase. -/
theorem build_trace_decomp (h : List Unit) (o : Oracle) (image : Image) :
    (build h o image).1 =
      (Event.startThread ::
        (if o.makedirsOk then [Event.makedirs true]
         else [Event.makedirs false, Event.kill Sig.SIGKILL])) ++
        (Event.copyWait o.copyExit :: (afterCopy o image).1) := by
  simp [build]

/-- The value the task returns is decided by the post-copy phase. -/
theorem build_result_eq (h : List Unit) (o : Oracle) (image : Image) :
    (build h o image).2 = (afterCopy o image).2 := rfl

/-- When the cleanup call returns and the target record is present, the
post-copy phase returns the reaped status. -/
theorem afterCopy_result (o : Oracle) (image : Image) (t : Target)
    (h3 : o.rmtreeOk = true) (h7 : image.target = some t) :
    (afterCopy o image).2 = some o.retcode := by
  by_cases h4 : o.retcode = 0 <;> by_cases h5 : o.userExists <;>
    by_cases h2 : o.copyExit = 0 <;>
      simp [afterCopy, successTail, failureTail, h2, h3, h4, h5, h7]

/-- When the cleanup call raises, the task returns nothing. -/
theorem afterCopy_result_none (o : Oracle) (image : Image)
    (h3 : o.rmtreeOk = false) :
    (afterCopy o image).2 = none := by
  simp [afterCopy, h3]

/-- The success tail never signals the process. -/
theorem sigcont_not_mem_successTail (o : Oracle) (image : Image) :
    Event.kill Sig.SIGCONT ∉ (successTail o image).1 := by
  by_cases h5 : o.userExists <;> cases h7 : image.target <;>
    by_cases h6 : o.emailNotifications <;>
      simp [successTail, h5, h6, h7]

/-- The failure tail never signals the process. -/
theorem sigcont_not_mem_failureTail (o : Oracle) (image : Image) :
    Event.kill Sig.SIGCONT ∉ (failureTail o image).1 := by
  cases h7 : image.target <;>
    by_cases h56 : o.userExists && o.emailNotifications <;>
      simp [failureTail, h7, h56]

/-- Whatever the run's outcomes, the supervisor trace contains the
blocking wait immediately followed by the cleanup attempt. -/
theorem build_rmtree_after_waitpid (h : List Unit) (o : Oracle)
    (image : Image) :
    ∃ a b, (build h o image).1 =
      a ++ Event.waitpid o.retcode :: Event.rmtree o.rmtreeOk :: b := by
  refine ⟨Event.startThread ::
      ((if o.makedirsOk then [Event.makedirs true]
        else [Event.makedirs false, Event.kill Sig.SIGKILL]) ++
        (Event.copyWait o.copyExit ::
          ((if o.copyExit = 0 then [] else [Event.kill Sig.SIGKILL]) ++
            [Event.writePty startBanner, Event.kill Sig.SIGCONT]))),
    (if o.rmtreeOk then
       Event.writePty MAGIC_PHRASE ::
         (if o.retcode = 0 then successTail o image
          else failureTail o image).1
     else []), ?_⟩
  by_cases h3 : o.rmtreeOk <;> simp [build, afterCopy, h3]

/-- The complete pty-write sequence of a run: banner, then sentinel when
cleanup returns, then the failure line when the status was nonzero. -/
theorem build_ptyWrites (h : List Unit) (o : Oracle) (image : Image) :
    ptyWrites (build h o image).1 =
      if o.rmtreeOk then
        (if o.retcode = 0 then [startBanner, MAGIC_PHRASE]
         else [startBanner, MAGIC_PHRASE, failLine])
      else [startBanner] := by
  rw [ptyWrites, build_trace_decomp, List.filterMap_append]
  by_cases h1 : o.makedirsOk <;>
    simp [h1, ptyWrite?, ptyWrites_afterCopy]

/-! ## Lemmas about the descriptor-handoff loop -/

/-- One loop iteration on a failed connection attempt: sleep, retry. -/
theorem pass_fd_step_fail (attempts : Nat → ConnResult) (fuel i : Nat)
    (h : attempts i ≠ ConnResult.ok) :
    pass_fd attempts (fuel + 1) i =
      (pass_fd attempts fuel (i + 1)).map
        (fun l => FdEvent.sleepOne :: l) := by
  cases hc : attempts i with
  | ok => exact absurd hc h
  | enoent => simp [pass_fd, hc]
  | econnrefused => simp [pass_fd, hc]
  | otherErr => simp [pass_fd, hc]

/-- One loop iteration on a successful connection attempt: break out of
the loop and send the descriptor once. -/
theorem pass_fd_step_ok (attempts : Nat → ConnResult) (fuel i : Nat)
    (h : attempts i = ConnResult.ok) :
    pass_fd attempts (fuel + 1) i = some [FdEvent.sendFd] := by
  simp [pass_fd, h]

/-- A `_pass_fd` run whose first successful attempt is attempt `i + k`:
one backoff sleep per failed attempt, then a single descriptor send. -/
theorem pass_fd_first_success (attempts : Nat → ConnResult) (k : Nat) :
    ∀ i, (∀ j, j < k → attempts (i + j) ≠ ConnResult.ok) →
      attempts (i + k) = ConnResult.ok →
      pass_fd attempts (k + 1) i =
        some (List.replicate k FdEvent.sleepOne ++ [FdEvent.sendFd]) := by
  induction k with
  | zero =>
      intro i hfail hok
      simp only [Nat.add_zero] at hok
      simp [pass_fd_step_ok attempts 0 i hok]
  | succ n ihn =>
      intro i hfail hok
      have h0 : attempts i ≠ ConnResult.ok := by
        simpa using hfail 0 (Nat.succ_pos n)
      have hfail' : ∀ j, j < n → attempts (i + 1 + j) ≠ ConnResult.ok := by
        intro j hj
        have hh := hfail (j + 1) (Nat.succ_lt_succ hj)
        rwa [show i + (j + 1) = i + 1 + j by omega] at hh
      have hok' : attempts (i + 1 + n) = ConnResult.ok := by
        rwa [show i + 1 + n = i + (n + 1) by omega]
      rw [pass_fd_step_fail attempts (n + 1) i h0, ihn (i + 1) hfail' hok']
      simp [List.replicate_succ]

/-- If no connection attempt ever succeeds, the `_pass_fd` loop is still
running after any number of attempts: no retry limit, no timeout, and the
descriptor is never sent. -/
theorem pass_fd_no_success (attempts : Nat → ConnResult)
    (hfail : ∀ j, attempts j ≠ ConnResult.ok) :
    ∀ fuel i, pass_fd attempts fuel i = none := by
  intro fuel
  induction fuel with
  | zero => intro i; rfl
  | succ n ihn =>
      intro i
      rw [pass_fd_step_fail attempts n i (hfail i), ihn (i + 1)]
      rfl

/-! ## The claims -/

/-- C1, counterexample to the claim as stated: in a run where the builder
exits 2, the last pty write of the supervisor is the failure line, not
the sentinel, although the sentinel was written (once, earlier). -/
theorem C1_counterexample :
    (ptyWrites (build [] failOracle sampleImage).1).getLast? = some failLine
      ∧ MAGIC_PHRASE ∈ ptyWrites (build [] failOracle sampleImage).1
      ∧ failLine ≠ MAGIC_PHRASE := by
  decide

/-- C1 (amended): the complete pty-write sequence of a job.  When the
cleanup call returns, the sentinel is written exactly once, after the
startup banner; it is the last write on the success path, but on the
failure path the failure line is written after it.  When cleanup raises,
only the banner is written and the sentinel never appears. -/
theorem C1_sentinel (h : List Unit) (o : Oracle) (image : Image) :
    ptyWrites (build h o image).1 =
      if o.rmtreeOk then
        (if o.retcode = 0 then [startBanner, MAGIC_PHRASE]
         else [startBanner, MAGIC_PHRASE, failLine])
      else [startBanner] :=
  build_ptyWrites h o image

/-- C2: in the supervisor's sequence of actions the continue signal is
sent exactly once, and strictly after the copy operation's wait — no
continue signal ever precedes the copy wait. -/
theorem C2_sigcont_follows_copy_wait (h : List Unit) (o : Oracle)
    (image : Image) :
    ∃ pre mid post,
      (build h o image).1 =
        pre ++ Event.copyWait o.copyExit ::
          (mid ++ Event.kill Sig.SIGCONT :: post)
      ∧ Event.kill Sig.SIGCONT ∉ pre ∧ Event.kill Sig.SIGCONT ∉ mid
      ∧ Event.kill Sig.SIGCONT ∉ post := by
  refine ⟨Event.startThread ::
      (if o.makedirsOk then [Event.makedirs true]
       else [Event.makedirs false, Event.kill Sig.SIGKILL]),
    (if o.copyExit = 0 then [] else [Event.kill Sig.SIGKILL]) ++
      [Event.writePty startBanner],
    Event.waitpid o.retcode ::
      (if o.rmtreeOk then
         Event.rmtree true :: Event.writePty MAGIC_PHRASE ::
           (if o.retcode = 0 then successTail o image
            else failureTail o image).1
       else [Event.rmtree false]), ?_, ?_, ?_, ?_⟩
  · by_cases h3 : o.rmtreeOk <;> simp [build, afterCopy, h3]
  · by_cases h1 : o.makedirsOk <;> simp [h1]
  · by_cases h2 : o.copyExit = 0 <;> simp [h2]
  · by_cases h3 : o.rmtreeOk <;> by_cases h4 : o.retcode = 0 <;>
      simp [h3, h4, sigcont_not_mem_successTail, sigcont_not_mem_failureTail]

/-- C3, counterexample to the claim as stated: when `os.makedirs` raises,
the supervisor SIGKILLs the suspended child but does not abort the job
without sending the continue signal — the continue signal is sent too. -/
theorem C3_counterexample :
    Event.kill Sig.SIGKILL ∈ (build [] mkdirFailOracle sampleImage).1
      ∧ Event.kill Sig.SIGCONT ∈ (build [] mkdirFailOracle sampleImage).1 := by
  decide

/-- C3 (amended): when workspace preparation fails (the target directory
already exists or the base-system copy exits non-zero) the supervisor
sends SIGKILL to the still-suspended process, but it does not abort the
job: it proceeds with the normal sequence, sending the continue signal to
the already-killed process and blocking on its reaped status. -/
theorem C3_prep_failure (h : List Unit) (o : Oracle) (image : Image)
    (hfail : o.makedirsOk = false ∨ o.copyExit ≠ 0) :
    Event.kill Sig.SIGKILL ∈ (build h o image).1
      ∧ Event.kill Sig.SIGCONT ∈ (build h o image).1
      ∧ Event.waitpid o.retcode ∈ (build h o image).1 := by
  refine ⟨?_, ?_, ?_⟩
  · rcases hfail with h1 | h2
    · simp [build, h1]
    · by_cases h1 : o.makedirsOk <;> by_cases h3 : o.rmtreeOk <;>
        simp [build, afterCopy, h1, h2, h3]
  · by_cases h1 : o.makedirsOk <;> by_cases h2 : o.copyExit = 0 <;>
      by_cases h3 : o.rmtreeOk <;> simp [build, afterCopy, h1, h2, h3]
  · by_cases h1 : o.makedirsOk <;> by_cases h2 : o.copyExit = 0 <;>
      by_cases h3 : o.rmtreeOk <;> simp [build, afterCopy, h1, h2, h3]

/-- C3, witness: the amended claim at the concrete run where `makedirs`
fails. -/
theorem C3_witness :
    Event.kill Sig.SIGKILL ∈ (build [] mkdirFailOracle plainImage).1
      ∧ Event.kill Sig.SIGCONT ∈ (build [] mkdirFailOracle plainImage).1
      ∧ Event.waitpid mkdirFailOracle.retcode ∈
          (build [] mkdirFailOracle plainImage).1 :=
  C3_prep_failure [] mkdirFailOracle plainImage (Or.inl (by decide))

/-- C4, counterexample to the claim as stated: in a failed build the
failure line is written after the terminal sentinel, not before it. -/
theorem C4_counterexample :
    ptyWrites (build [] failOracle sampleImage).1 =
        [startBanner, MAGIC_PHRASE, failLine]
      ∧ (ptyWrites (build [] failOracle sampleImage).1).indexOf MAGIC_PHRASE <
          (ptyWrites (build [] failOracle sampleImage).1).indexOf failLine := by
  decide

/-- C4 (amended): when cleanup returns and the target record is present,
the task returns the reaped status itself: status 0 classifies the job as
succeeded and returns 0 with no failure line; a nonzero status classifies
it as failed, returns that status, and the failure line is written after
the terminal sentinel rather than before it. -/
theorem C4_returns_status (h : List Unit) (o : Oracle) (image : Image)
    (t : Target) (h3 : o.rmtreeOk = true) (h7 : image.target = some t) :
    (build h o image).2 = some o.retcode
      ∧ (o.retcode = 0 →
          ptyWrites (build h o image).1 = [startBanner, MAGIC_PHRASE])
      ∧ (o.retcode ≠ 0 →
          ptyWrites (build h o image).1 =
            [startBanner, MAGIC_PHRASE, failLine]) := by
  refine ⟨?_, ?_, ?_⟩
  · rw [build_result_eq, afterCopy_result o image t h3 h7]
  · intro h4
    rw [build_ptyWrites]
    simp [h3, h4]
  · intro h4
    rw [build_ptyWrites]
    simp [h3, h4]

/-- C4, witness: the amended claim at the concrete failing run. -/
theorem C4_witness :
    (build [] failOracle sampleImage).2 = some failOracle.retcode
      ∧ ptyWrites (build [] failOracle sampleImage).1 =
          [startBanner, MAGIC_PHRASE, failLine] := by
  have hc := C4_returns_status [] failOracle sampleImage
    { device := "Raspberry Pi 3", distro := "TestOS" } (by decide) (by decide)
  exact ⟨hc.1, hc.2.2 (by decide)⟩

/-- C5: only allow-listed caller-configuration keys are merged into the
builder environment — a key that is neither fixed, conditional nor
allow-listed never appears; an allow-listed key such as `HOSTNAME` mapped
to `v` by the caller configuration appears with value `v`. -/
theorem C5_config_allowlist (conf : Conf) (image : Image) (k v : String) :
    (k ∉ fixedKeys → k ∉ conditionalKeys → k ∉ allowedKeys →
        (buildEnv conf image).get? k = none)
      ∧ ((("HOSTNAME", v) ∈ image.configuration
            ∧ ∀ p ∈ image.configuration, p.1 = "HOSTNAME" → p.2 = v) →
          (buildEnv conf image).get? "HOSTNAME" = some v) := by
  constructor
  · intro h1 h2 h3
    rw [buildEnv_get_of_not_allowed conf image k h3]
    exact envBeforeUpdate_get_other conf image k h1 h2
  · rintro ⟨hmem, huniq⟩
    have hv : ∀ p ∈ image.configuration.filter
        (fun p => allowedKeys.contains p.1), p.1 = "HOSTNAME" → p.2 = v := by
      intro p hp hpk
      exact huniq p (List.mem_filter.mp hp).1 hpk
    have hany : (image.configuration.filter
        (fun p => allowedKeys.contains p.1)).any
          (fun p => p.1 = "HOSTNAME") = true := by
      refine List.any_eq_true.mpr ⟨("HOSTNAME", v), ?_, by simp⟩
      exact List.mem_filter.mpr ⟨hmem, by simp [allowedKeys]⟩
    rw [buildEnv_eq_foldl, Env.get_foldl_set _ _ "HOSTNAME" v hv, if_pos hany]

/-- C5, witness: in the sample configuration `{HOSTNAME: h1, BAD: z}`,
`EVIL_KEY` is absent and `HOSTNAME` carries `h1`. -/
theorem C5_witness :
    (buildEnv sampleConf sampleImage).get? "EVIL_KEY" = none
      ∧ (buildEnv sampleConf sampleImage).get? "HOSTNAME" = some "h1" := by
  have hc := C5_config_allowlist sampleConf sampleImage "EVIL_KEY" "h1"
  exact ⟨hc.1 (by decide) (by decide) (by decide), hc.2 ⟨by decide, by decide⟩⟩

/-- C6: the builder environment takes credentials from the first users
entry only — with a non-empty list, `ENABLE_USER` is `true` and
`USER_NAME`/`USER_PASSWORD` come from the head, and the whole environment
equals the one built from the head alone, so no later entry contributes
anything; with an empty list none of the three keys is set. -/
theorem C6_first_user_only (conf : Conf) (image : Image) (u : UserEntry)
    (rest : List UserEntry) :
    (image.users = u :: rest →
        (buildEnv conf image).get? "ENABLE_USER" = some "true"
          ∧ (buildEnv conf image).get? "USER_NAME" = some u.username
          ∧ (buildEnv conf image).get? "USER_PASSWORD" = some u.password
          ∧ buildEnv conf image = buildEnv conf { image with users := [u] })
      ∧ (image.users = [] →
          (buildEnv conf image).get? "ENABLE_USER" = none
            ∧ (buildEnv conf image).get? "USER_NAME" = none
            ∧ (buildEnv conf image).get? "USER_PASSWORD" = none) := by
  have hEU := buildEnv_get_of_not_allowed conf image "ENABLE_USER" (by decide)
  have hUN := buildEnv_get_of_not_allowed conf image "USER_NAME" (by decide)
  have hUP := buildEnv_get_of_not_allowed conf image "USER_PASSWORD" (by decide)
  constructor
  · intro hus
    obtain ⟨he, hn, hp⟩ := envBeforeUpdate_user_cons conf image u rest hus
    refine ⟨by rw [hEU, he], by rw [hUN, hn], by rw [hUP, hp], ?_⟩
    have hbase : envBeforeUpdate conf image =
        envBeforeUpdate conf { image with users := [u] } := by
      simp [envBeforeUpdate, hus]
    rw [buildEnv_eq_foldl, buildEnv_eq_foldl, hbase]
  · intro hus
    obtain ⟨he, hn, hp⟩ := envBeforeUpdate_user_nil conf image hus
    exact ⟨by rw [hEU, he], by rw [hUN, hn], by rw [hUP, hp]⟩

/-- C6, witness: the sample image's single user `bob` fills the three
credential keys. -/
theorem C6_witness :
    (buildEnv sampleConf sampleImage).get? "ENABLE_USER" = some "true"
      ∧ (buildEnv sampleConf sampleImage).get? "USER_NAME" = some "bob"
      ∧ (buildEnv sampleConf sampleImage).get? "USER_PASSWORD" = some "y" := by
  have hc := (C6_first_user_only sampleConf sampleImage
    { username := "bob", password := "y" } []).1 (by decide)
  exact ⟨hc.1, hc.2.1, hc.2.2.1⟩

/-- C7, counterexample to the claim as stated: the environment has no
`BUILDER_LOCATION` key — the builder-location value is bound under
`RPI2_BUILDER_LOCATION`. -/
theorem C7_counterexample :
    (buildEnv sampleConf sampleImage).get? "BUILDER_LOCATION" = none
      ∧ (buildEnv sampleConf sampleImage).get? "RPI2_BUILDER_LOCATION" =
          some "/var/dominion/rpi2-gen-image" := by
  decide

/-- C7 (amended): the fixed keys are PATH, BASEDIR, CHROOT_SOURCE,
IMAGE_NAME, WORKSPACE_DIR, BUILD_ID, RPI2_BUILDER_LOCATION and
APT_INCLUDES — with every conditional branch off they are exactly the
environment's keys, in this order; the builder-location value is always
bound under RPI2_BUILDER_LOCATION and never under BUILDER_LOCATION. -/
theorem C7_fixed_keys (conf : Conf) (image : Image) :
    (buildEnv conf image).get? "RPI2_BUILDER_LOCATION" =
        some conf.builder_location
      ∧ (buildEnv conf image).get? "BUILDER_LOCATION" = none
      ∧ (image.root_password = "" → image.target = none → image.users = [] →
          image.configuration = [] →
          (buildEnv conf image).map Prod.fst = fixedKeys) := by
  refine ⟨?_, ?_, ?_⟩
  · rw [buildEnv_get_of_not_allowed conf image _ (by decide)]
    exact envBeforeUpdate_get_rpi2 conf image
  · rw [buildEnv_get_of_not_allowed conf image _ (by decide)]
    exact envBeforeUpdate_get_other conf image _ (by decide) (by decide)
  · intro h1 h2 h3 h4
    simp [buildEnv, envBeforeUpdate, h1, h2, h3, h4, fixedKeys]

/-- C7, witness: the amended claim at the sample worker configuration and
an image with every conditional branch off. -/
theorem C7_witness :
    (buildEnv sampleConf plainImage).get? "RPI2_BUILDER_LOCATION" =
        some sampleConf.builder_location
      ∧ (buildEnv sampleConf plainImage).map Prod.fst = fixedKeys := by
  have hc := C7_fixed_keys sampleConf plainImage
  exact ⟨hc.1, hc.2.2 (by decide) (by decide) (by decide) (by decide)⟩

/-- C8, counterexample to the claim as stated: when `shutil.rmtree`
raises after a successful build, the failure is not merely logged — the
exception escapes and the task returns no outcome code at all. -/
theorem C8_counterexample :
    (build [] rmtreeFailOracle sampleImage).2 = none
      ∧ rmtreeFailOracle.retcode = 0 := by
  decide

/-- C8 (amended): once the process is reaped the supervisor attempts the
recursive removal of the target directory unconditionally, immediately
after the wait and on both outcomes alike; but a removal failure is not
best-effort: the exception propagates, the sentinel is never written, and
the task returns no outcome code. -/
theorem C8_cleanup (h : List Unit) (o : Oracle) (image : Image) :
    (∃ a b, (build h o image).1 =
        a ++ Event.waitpid o.retcode :: Event.rmtree o.rmtreeOk :: b)
      ∧ (o.rmtreeOk = false →
          (build h o image).2 = none
            ∧ ptyWrites (build h o image).1 = [startBanner]) := by
  refine ⟨build_rmtree_after_waitpid h o image, ?_⟩
  intro h3
  refine ⟨?_, ?_⟩
  · rw [build_result_eq, afterCopy_result_none o image h3]
  · rw [build_ptyWrites, h3]
    simp

/-- C8, witness: the amended claim at the concrete run whose cleanup
fails. -/
theorem C8_witness :
    (build [] rmtreeFailOracle plainImage).2 = none
      ∧ ptyWrites (build [] rmtreeFailOracle plainImage).1 = [startBanner] :=
  (C8_cleanup [] rmtreeFailOracle plainImage).2 (by decide)

/-- C9: the handoff channel backs off one time unit per failed connection
attempt and retries without limit or timeout — if attempt `k` is the
first to succeed, the loop has slept once per failure, sends the
descriptor exactly once and terminates; if no attempt ever succeeds it
runs forever and never sends; and the supervisor's trace and returned
outcome are independent of the handoff thread. -/
theorem C9_handoff (attempts : Nat → ConnResult) (k fuel : Nat)
    (h₁ h₂ : List Unit) (o : Oracle) (image : Image) :
    ((∀ j, j < k → attempts j ≠ ConnResult.ok) →
        attempts k = ConnResult.ok →
        pass_fd attempts (k + 1) 0 =
          some (List.replicate k FdEvent.sleepOne ++ [FdEvent.sendFd]))
      ∧ ((∀ j, attempts j ≠ ConnResult.ok) →
          pass_fd attempts fuel 0 = none)
      ∧ build h₁ o image = build h₂ o image := by
  refine ⟨?_, ?_, rfl⟩
  · intro hfail hok
    exact pass_fd_first_success attempts k 0 (by simpa using hfail)
      (by simpa using hok)
  · intro hfail
    exact pass_fd_no_success attempts hfail fuel 0

/-- C9, witness: two failed attempts, then success — two backoff sleeps
and a single descriptor send; the supervisor run is unchanged by the
handoff behaviour. -/
theorem C9_witness :
    pass_fd sampleAttempts 3 0 =
        some [FdEvent.sleepOne, FdEvent.sleepOne, FdEvent.sendFd]
      ∧ build [] okOracle sampleImage = build [()] okOracle sampleImage := by
  have hc := C9_handoff sampleAttempts 2 5 [] [()] okOracle sampleImage
  refine ⟨?_, hc.2.2⟩
  have h1 := hc.1 (by decide) (by decide)
  simpa using h1

/-- C10: with a present target record the environment's `RPI_MODEL` is
`"3"` exactly when the device string equals `"Raspberry Pi 3"` and `"2"`
for every other device string; with no target record `RPI_MODEL` is not
set at all. -/
theorem C10_rpi_model (conf : Conf) (image : Image) (t : Target) :
    (image.target = some t →
        (buildEnv conf image).get? "RPI_MODEL" =
          some (if t.device = "Raspberry Pi 3" then "3" else "2"))
      ∧ (image.target = none →
          (buildEnv conf image).get? "RPI_MODEL" = none) := by
  have hna := buildEnv_get_of_not_allowed conf image "RPI_MODEL" (by decide)
  constructor
  · intro htg
    rw [hna]
    exact envBeforeUpdate_rpi_model_some conf image t htg
  · intro htg
    rw [hna]
    exact envBeforeUpdate_rpi_model_none conf image htg

/-- C10, witness: the sample image targets a Raspberry Pi 3 and gets
model `"3"`; the plain image has no target and no `RPI_MODEL` key. -/
theorem C10_witness :
    (buildEnv sampleConf sampleImage).get? "RPI_MODEL" = some "3"
      ∧ (buildEnv sampleConf plainImage).get? "RPI_MODEL" = none := by
  constructor
  · have hc := (C10_rpi_model sampleConf sampleImage
      { device := "Raspberry Pi 3", distro := "TestOS" }).1 (by decide)
    simpa using hc
  · exact (C10_rpi_model sampleConf plainImage
      { device := "", distro := "" }).2 (by decide)

/-- C1, witness: the amended pty-write characterisation at the concrete
successful run — banner then sentinel, sentinel last. -/
theorem C1_witness :
    ptyWrites (build [] okOracle sampleImage).1 =
      [startBanner, MAGIC_PHRASE] := by
  have hc := C1_sentinel [] okOracle sampleImage
  simpa using hc

/-- C2, witness: the ordering claim at the concrete successful run. -/
theorem C2_witness :
    ∃ pre mid post,
      (build [] okOracle sampleImage).1 =
        pre ++ Event.copyWait okOracle.copyExit ::
          (mid ++ Event.kill Sig.SIGCONT :: post)
      ∧ Event.kill Sig.SIGCONT ∉ pre ∧ Event.kill Sig.SIGCONT ∉ mid
      ∧ Event.kill Sig.SIGCONT ∉ post :=
  C2_sigcont_follows_copy_wait [] okOracle sampleImage
